import Mathlib

/-!
Verification of the EVO charger CAN-bus codec (EVO11KA-GUI-Charger-FSAE).

The C sources under `utils_c_functions/` are shallowly embedded here:

* an 8-byte CAN payload (`uint8_t data[8]`) becomes `Frame8`, a structure of
  eight `Fin 256` bytes;
* C `float` arithmetic is modelled exactly over `ℚ` (every constant appearing
  in the encode paths under scrutiny — 10, 0.1, 0.2 — and every concrete test
  input used below is exactly representable in IEEE single precision, so the
  rational model agrees with the compiled code on those paths);
* the C cast `(uint16_t)(f)` of a nonnegative float is modelled as truncation
  toward zero (`Int.toNat ⌊·⌋`) followed by reduction modulo 2^16;
* a C function `bool f(const uint8_t *data, T *out)` that writes through an
  out-pointer is modelled as a pure function; where the C body can leave a
  field of `*out` unassigned (the Fault failure level), the model takes the
  prior pointee value as an explicit argument.  NULL-pointer behaviour is
  modelled separately by `_call` wrappers taking `Option` arguments.
-/

/-- An 8-byte CAN payload: the `uint8_t data[8]` buffer of the C sources. -/
structure Frame8 where
  b0 : Fin 256
  b1 : Fin 256
  b2 : Fin 256
  b3 : Fin 256
  b4 : Fin 256
  b5 : Fin 256
  b6 : Fin 256
  b7 : Fin 256
deriving DecidableEq, Repr

/-- Conversion of a computed `Nat` to a byte, as the C `(uint8_t)` cast. -/
def toByte (x : Nat) : Fin 256 := ⟨x % 256, Nat.mod_lt x (by norm_num)⟩

/-! ## Level 1 — `utils_canBus_charger_level1.c` -/

/-- CTL packet value struct (`CanPacket_Ctl_t`). -/
structure CanPacket_Ctl where
  can_enable : Bool
  led3_enable : Bool
  iac_max_A : ℚ
  vout_max_V : ℚ
  iout_max_A : ℚ
deriving DecidableEq, Repr

/-- STAT packet value struct (`CanPacket_Stat_t`). -/
structure CanPacket_Stat where
  power_enable : Bool
  error_latch : Bool
  warn_limit : Bool
  lim_temp : Bool
  warning_hv : Bool
  bulks : Bool
deriving DecidableEq, Repr

/-- Embeds `Voltage_ToRawCan`: clamp to [0, 10000], then `(uint16_t)(v * 10)`
(truncation toward zero and reduction mod 2^16). -/
def Voltage_ToRawCan (voltage_V : ℚ) : Nat :=
  let v1 := if voltage_V < 0 then 0 else voltage_V
  let v2 := if v1 > 10000 then 10000 else v1
  Int.toNat ⌊v2 * 10⌋ % 65536

/-- Embeds `CurrentOut_ToRawCan`: clamp to [0, 1500], then `(uint16_t)(i * 10)`. -/
def CurrentOut_ToRawCan (current_A : ℚ) : Nat :=
  let v1 := if current_A < 0 then 0 else current_A
  let v2 := if v1 > 1500 then 1500 else v1
  Int.toNat ⌊v2 * 10⌋ % 65536

/-- Embeds `CurrentAC_ToRawCAN`: clamp to [0, 500], then `(uint16_t)(i * 10)`. -/
def CurrentAC_ToRawCAN (current_A : ℚ) : Nat :=
  let v1 := if current_A < 0 then 0 else current_A
  let v2 := if v1 > 500 then 500 else v1
  Int.toNat ⌊v2 * 10⌋ % 65536

/-- Embeds `CanBus_CreatePacket_Ctl` (non-NULL case): flag bits 7 and 3 of
byte 0, three 16-bit raw fields stored MSB first, trailing byte zero. -/
def CanBus_CreatePacket_Ctl (ctl : CanPacket_Ctl) : Frame8 :=
  let d0 : Nat := (if ctl.can_enable then 0x80 else 0x00) |||
                  (if ctl.led3_enable then 0x08 else 0x00)
  let iac_raw := CurrentAC_ToRawCAN ctl.iac_max_A
  let vout_raw := Voltage_ToRawCan ctl.vout_max_V
  let iout_raw := CurrentOut_ToRawCan ctl.iout_max_A
  { b0 := toByte d0
    b1 := toByte ((iac_raw >>> 8) &&& 0xFF)
    b2 := toByte (iac_raw &&& 0xFF)
    b3 := toByte ((vout_raw >>> 8) &&& 0xFF)
    b4 := toByte (vout_raw &&& 0xFF)
    b5 := toByte ((iout_raw >>> 8) &&& 0xFF)
    b6 := toByte (iout_raw &&& 0xFF)
    b7 := toByte 0x00 }

/-- Embeds `CanBus_DecodePacket_Stat` (non-NULL case).  The C body assigns
every field of `*stat` from the buffer; the prior pointee `_stat` is ignored. -/
def CanBus_DecodePacket_Stat (data : Frame8) (_stat : CanPacket_Stat) :
    Bool × CanPacket_Stat :=
  (true,
   { power_enable := (data.b0.val &&& 0x80) != 0
     error_latch  := (data.b0.val &&& 0x40) != 0
     warn_limit   := (data.b0.val &&& 0x20) != 0
     lim_temp     := (data.b0.val &&& 0x08) != 0
     warning_hv   := (data.b0.val &&& 0x02) != 0
     bulks        := (data.b0.val &&& 0x01) != 0 })

/-- Values printed by `CanBus_Debug_PrintCtl`, i.e. the CTL frame decode. -/
structure CtlDecoded where
  can_enable : Bool
  led3 : Bool
  iac : ℚ
  vout : ℚ
  iout : ℚ
deriving DecidableEq, Repr

/-- Embeds the value extraction of `CanBus_Debug_PrintCtl`: flag bits 7 and 3
of byte 0; 16-bit big-endian raws at bytes 1-2, 3-4, 5-6, each divided by 10. -/
def CanBus_Debug_PrintCtl (data : Frame8) : CtlDecoded :=
  let iac_raw : Nat := (data.b1.val <<< 8) ||| data.b2.val
  let vout_raw : Nat := (data.b3.val <<< 8) ||| data.b4.val
  let iout_raw : Nat := (data.b5.val <<< 8) ||| data.b6.val
  { can_enable := (data.b0.val &&& 0x80) != 0
    led3 := (data.b0.val &&& 0x08) != 0
    iac := (iac_raw : ℚ) / 10
    vout := (vout_raw : ℚ) / 10
    iout := (iout_raw : ℚ) / 10 }

/-- Encode-then-decode composition for the CTL message: the encoder
`CanBus_CreatePacket_Ctl` followed by the decode performed by
`CanBus_Debug_PrintCtl`. -/
def ctlRoundTrip (ctl : CanPacket_Ctl) : CtlDecoded :=
  CanBus_Debug_PrintCtl (CanBus_CreatePacket_Ctl ctl)

/-! ## Level 2 — `utils_canBus_charger_level2.c` -/

/-- `FAILURE_WARNING` of `FailureLevel_t`. -/
def FAILURE_WARNING : Nat := 1
/-- `FAILURE_SOFT` of `FailureLevel_t`. -/
def FAILURE_SOFT : Nat := 10
/-- `FAILURE_HARD` of `FailureLevel_t`. -/
def FAILURE_HARD : Nat := 11
/-- `FRAME_SINGLE` of `FrameType_t`. -/
def FRAME_SINGLE : Nat := 1
/-- `FRAME_MULTI` of `FrameType_t`. -/
def FRAME_MULTI : Nat := 2

/-- Fault packet value struct (`CanPacket_Fault_t`).  The C enum-typed fields
hold their numeric values (a C enum cast preserves the raw integer). -/
structure CanPacket_Fault where
  frame_type : Nat
  total_errors : Nat
  frame_number : Nat
  fault_code : Nat
  occurrence : Nat
  failure_level : Nat
  first_time_h : Nat
  last_time_h : Nat
deriving DecidableEq, Repr

/-- Embeds `CanBus_DecodePacket_Fault` (non-NULL case).  Every field of the
output struct is assigned from the buffer except `failure_level`, which the C
body assigns only when the level bits are `00`, `10` or `11`; for the bit
pattern `01` no branch executes and the field keeps the prior pointee value,
passed here as `fault`. -/
def CanBus_DecodePacket_Fault (data : Frame8) (fault : CanPacket_Fault) :
    Bool × CanPacket_Fault :=
  let level_bits := data.b3.val &&& 0x03
  (true,
   { frame_type   := (data.b0.val >>> 6) &&& 0x03
     total_errors := data.b0.val &&& 0x3F
     frame_number := (data.b1.val >>> 2) &&& 0x3F
     fault_code   := data.b2.val
     occurrence   := (data.b3.val >>> 2) &&& 0x3F
     failure_level :=
       if level_bits = 0x00 then FAILURE_WARNING
       else if level_bits = 0x02 then FAILURE_SOFT
       else if level_bits = 0x03 then FAILURE_HARD
       else fault.failure_level
     first_time_h := (data.b4.val <<< 8) ||| data.b5.val
     last_time_h  := (data.b6.val <<< 8) ||| data.b7.val })

/-- Embeds `CanBus_IsNoFaultDetected`: the loop over `i = 1 .. 7` returns
true iff every one of bytes 1-7 equals `0xFF`. -/
def CanBus_IsNoFaultDetected (data : Frame8) : Bool :=
  (data.b1.val == 0xFF) && (data.b2.val == 0xFF) && (data.b3.val == 0xFF) &&
  (data.b4.val == 0xFF) && (data.b5.val == 0xFF) && (data.b6.val == 0xFF) &&
  (data.b7.val == 0xFF)

/-- Result of the fault-frame reporting pipeline of `CanBus_Debug_PrintFault`:
either the sentinel "no fault stored" report or a decoded fault record. -/
inductive FaultReport where
  | noFault : FaultReport
  | record : CanPacket_Fault → FaultReport
deriving DecidableEq, Repr

/-- Embeds the control flow of `CanBus_Debug_PrintFault`: the sentinel check
runs before field-level decoding and, when it fires, the function returns the
"no fault" report without decoding. -/
def CanBus_Debug_PrintFault (data : Frame8) (prior : CanPacket_Fault) :
    FaultReport :=
  if CanBus_IsNoFaultDetected data then FaultReport.noFault
  else FaultReport.record (CanBus_DecodePacket_Fault data prior).2

/-! ## Level 4 — `utils_canBus_charger_level4.c` -/

/-- `BAUDRATE_500KBIT` of `BaudrateType_t`. -/
def BAUDRATE_500KBIT : Nat := 0

/-- TST2 packet value struct (`CanPacket_Tst2_t`).  Enum-typed fields hold
their numeric values; float fields are modelled over `ℚ`. -/
structure CanPacket_Tst2 where
  baudrate : Nat
  id_type : Nat
  iac_control : Nat
  range : Nat
  three_phase : Bool
  slave : Bool
  evc_model : Nat
  id_setting : Nat
  air_cooler : Bool
  parallel_ctrl : Bool
  iacm_max_set_A : ℚ
  vout_max_set_V : ℚ
  iout_max_set_A : ℚ
  password : Nat
deriving DecidableEq, Repr

/-- Embeds `CanBus_DecodePacket_Tst2` (non-NULL case); every field of the
output struct is assigned from the buffer. -/
def CanBus_DecodePacket_Tst2 (data : Frame8) : CanPacket_Tst2 :=
  let vout_raw : Nat := (data.b3.val <<< 8) ||| data.b4.val
  let iout_raw : Nat := (data.b5.val <<< 8) ||| data.b6.val
  { baudrate := (data.b0.val >>> 6) &&& 0x03
    id_type := (data.b0.val >>> 5) &&& 0x01
    iac_control := (data.b0.val >>> 2) &&& 0x03
    range := data.b0.val &&& 0x03
    three_phase := (data.b0.val &&& (1 <<< 0)) != 0
    slave := (data.b1.val &&& (1 <<< 7)) != 0
    evc_model := (data.b1.val >>> 6) &&& 0x01
    id_setting := (data.b1.val >>> 2) &&& 0x0F
    parallel_ctrl := (data.b1.val &&& (1 <<< 1)) != 0
    air_cooler := (data.b1.val &&& (1 <<< 0)) != 0
    iacm_max_set_A := (data.b2.val : ℚ) * 0.2
    vout_max_set_V := (vout_raw : ℚ) * 0.1
    iout_max_set_A := (iout_raw : ℚ) * 0.1
    password := data.b7.val }

/-! ## NULL-pointer call wrappers

Each `_call` function models the full C signature: `none` stands for a NULL
pointer, `some x` for a valid pointer whose pointee is `x`.  The returned
`Option` is the pointee after the call. -/

/-- Call-level model of `CanBus_CreatePacket_Ctl` including the NULL guard. -/
def CanBus_CreatePacket_Ctl_call (ctl : Option CanPacket_Ctl)
    (data : Option Frame8) : Bool × Option Frame8 :=
  match ctl, data with
  | some c, some _ => (true, some (CanBus_CreatePacket_Ctl c))
  | _, _ => (false, data)

/-- Call-level model of `CanBus_DecodePacket_Fault` including the NULL guard. -/
def CanBus_DecodePacket_Fault_call (data : Option Frame8)
    (fault : Option CanPacket_Fault) : Bool × Option CanPacket_Fault :=
  match data, fault with
  | some d, some f =>
      ((CanBus_DecodePacket_Fault d f).1, some (CanBus_DecodePacket_Fault d f).2)
  | _, _ => (false, fault)

/-- Call-level model of `CanBus_DecodePacket_Tst2` including the NULL guard. -/
def CanBus_DecodePacket_Tst2_call (data : Option Frame8)
    (tst2 : Option CanPacket_Tst2) : Bool × Option CanPacket_Tst2 :=
  match data, tst2 with
  | some d, some _ => (true, some (CanBus_DecodePacket_Tst2 d))
  | _, _ => (false, tst2)

/-! ## Concrete frames and prior struct contents used in the theorems -/

/-- Fault example frame from the protocol documentation (level 2 example 2). -/
def faultExampleFrame : Frame8 := ⟨0x41, 0x01, 0xA8, 0x17, 0x00, 0x1E, 0x00, 0x78⟩

/-- Sentinel fault frame: byte 0 zero and bytes 1-7 all `0xFF`. -/
def noFaultFrame : Frame8 := ⟨0x00, 0xFF, 0xFF, 0xFF, 0xFF, 0xFF, 0xFF, 0xFF⟩

/-- Fault frame whose byte 3 is `0x15`: level bits are the undefined pattern 01. -/
def faultFrame01 : Frame8 := ⟨0x41, 0x01, 0xA8, 0x15, 0x00, 0x1E, 0x00, 0x78⟩

/-- A second fault frame with level bits 01 (byte 3 is `0x01`). -/
def faultFrame01b : Frame8 := ⟨0x02, 0x04, 0xA0, 0x01, 0x00, 0x01, 0x00, 0x02⟩

/-- TST2 example frame from the level-4 default-configuration example. -/
def tst2ExampleFrame : Frame8 := ⟨0x04, 0x00, 0xA0, 0x0F, 0xA0, 0x03, 0xE8, 0xA5⟩

/-- Prior fault-struct contents whose `failure_level` is `FAILURE_WARNING`. -/
def priorWarn : CanPacket_Fault := ⟨0, 0, 0, 0, 0, FAILURE_WARNING, 0, 0⟩

/-- Prior fault-struct contents whose `failure_level` is 99. -/
def prior99 : CanPacket_Fault := ⟨0, 0, 0, 0, 0, 99, 0, 0⟩

/-- An all-false prior STAT struct. -/
def statPriorA : CanPacket_Stat := ⟨false, false, false, false, false, false⟩

/-- An all-true prior STAT struct. -/
def statPriorB : CanPacket_Stat := ⟨true, true, true, true, true, true⟩

/-! ## Arithmetic helper lemmas -/

/-- Masking with `0xFF` is reduction mod 256. -/
theorem and_255_eq_mod (x : Nat) : x &&& 0xFF = x % 256 :=
  Nat.and_pow_two_sub_one_eq_mod x 8

/-- Shifting right by 8 is division by 256. -/
theorem shiftRight8_eq_div (x : Nat) : x >>> 8 = x / 256 :=
  Nat.shiftRight_eq_div_pow x 8

/-- Oring a byte into a value shifted left by 8 is positional addition. -/
theorem shiftLeft8_or_eq_add (a b : Nat) (h : b < 256) :
    (a <<< 8) ||| b = a * 256 + b := by
  have h8 : b < 2 ^ 8 := h
  calc (a <<< 8) ||| b = 2 ^ 8 * a ||| b := by rw [Nat.shiftLeft_eq, Nat.mul_comm]
    _ = 2 ^ 8 * a + b := (Nat.mul_add_lt_is_or h8 a).symm
    _ = a * 256 + b := by rw [Nat.mul_comm]

/-- Value of a computed byte. -/
theorem toByte_val (x : Nat) : (toByte x).val = x % 256 := rfl

/-- Recomposing a 16-bit value from the MSB/LSB bytes the CTL encoder stores. -/
theorem bytes_recompose (x : Nat) (h : x < 65536) :
    (toByte ((x >>> 8) &&& 0xFF)).val * 256 + (toByte (x &&& 0xFF)).val = x := by
  rw [toByte_val, toByte_val, and_255_eq_mod, and_255_eq_mod, shiftRight8_eq_div]
  omega

/-- Recomposing a 16-bit value the way the CTL debug decoder reads it back. -/
theorem bytes_recompose_lor (x : Nat) (h : x < 65536) :
    ((toByte ((x >>> 8) &&& 0xFF)).val <<< 8) ||| (toByte (x &&& 0xFF)).val = x := by
  rw [toByte_val, toByte_val, and_255_eq_mod, and_255_eq_mod, shiftRight8_eq_div,
    shiftLeft8_or_eq_add _ _ (by omega)]
  omega

/-- The two sequential `if` statements of the raw converters clamp to
`min (max q 0) B`. -/
theorem clamp_eq_min_max (q B : ℚ) (hB : 0 ≤ B) :
    (if (if q < 0 then 0 else q) > B then B else (if q < 0 then 0 else q)) =
      min (max q 0) B := by
  rcases lt_or_le q 0 with h | h
  · rw [if_pos h, if_neg (by linarith : ¬ (0 : ℚ) > B), max_eq_right h.le,
      min_eq_left hB]
  · rw [if_neg (not_lt.mpr h)]
    rcases le_or_lt q B with h2 | h2
    · rw [if_neg (not_lt.mpr h2), max_eq_left h, min_eq_left h2]
    · rw [if_pos h2, max_eq_left h, min_eq_right h2.le]

/-- For an in-range input the clamp of the raw converters is the identity. -/
theorem clamp_in_range (q B : ℚ) (h0 : 0 ≤ q) (hq : q ≤ B) :
    (if (if q < 0 then 0 else q) > B then B else (if q < 0 then 0 else q)) = q := by
  rw [if_neg (not_lt.mpr h0), if_neg (not_lt.mpr hq)]

/-- A scaled value of at most 6553.5 truncates to a raw below 2^16. -/
theorem toNat_floor_mul10_lt (v : ℚ) (h : v ≤ 6553.5) :
    Int.toNat ⌊v * 10⌋ < 65536 := by
  have h1 : ⌊v * 10⌋ ≤ ⌊(65535 : ℚ)⌋ := Int.floor_mono (by linarith)
  have h2 : ⌊(65535 : ℚ)⌋ = 65535 := by simp
  omega

/-- Truncating a nonnegative scaled value and dividing back by 10 moves the
value by at most one quantization step of 0.1. -/
theorem floor_div10_close (v : ℚ) (h0 : 0 ≤ v) :
    |((Int.toNat ⌊v * 10⌋ : ℕ) : ℚ) / 10 - v| ≤ 1 / 10 := by
  have hf0 : (0 : ℤ) ≤ ⌊v * 10⌋ := Int.floor_nonneg.mpr (mul_nonneg h0 (by norm_num))
  have h1 : ((⌊v * 10⌋ : ℤ) : ℚ) ≤ v * 10 := Int.floor_le _
  have h2 : v * 10 - 1 < ((⌊v * 10⌋ : ℤ) : ℚ) := Int.sub_one_lt_floor _
  have h3 : ((Int.toNat ⌊v * 10⌋ : ℕ) : ℚ) = ((⌊v * 10⌋ : ℤ) : ℚ) := by
    rw [← Int.cast_natCast, Int.toNat_of_nonneg hf0]
  rw [h3, abs_le]
  constructor <;> linarith

/-- Bit 7 of the encoded flag byte recovers the enable flag. -/
theorem flag_bit7 (e l : Bool) :
    (((toByte ((if e then 0x80 else 0x00) ||| (if l then 0x08 else 0x00))).val &&&
        0x80) != 0) = e := by
  cases e <;> cases l <;> rfl

/-- Bit 3 of the encoded flag byte recovers the LED3 flag. -/
theorem flag_bit3 (e l : Bool) :
    (((toByte ((if e then 0x80 else 0x00) ||| (if l then 0x08 else 0x00))).val &&&
        0x08) != 0) = l := by
  cases e <;> cases l <;> rfl

/-! ## Claim theorems -/

/-- C1 (counterexample): it is not the case that a Fault buffer with
failure-level bits 01 decodes `failure_level` to a value distinct from all of
Warning/Soft/Hard — with prior pointee `priorWarn` the retained value is
exactly `FAILURE_WARNING`. -/
theorem C1_counterexample :
    ¬ (∀ (data : Frame8) (fault : CanPacket_Fault),
        data.b3.val &&& 0x03 = 0x01 →
        (CanBus_DecodePacket_Fault data fault).2.failure_level ≠ FAILURE_WARNING ∧
        (CanBus_DecodePacket_Fault data fault).2.failure_level ≠ FAILURE_SOFT ∧
        (CanBus_DecodePacket_Fault data fault).2.failure_level ≠ FAILURE_HARD) := by
  intro h
  exact (h faultFrame01 priorWarn rfl).1 rfl

/-- C1 (amended): for every Fault buffer whose byte 3 has low two bits 01,
`CanBus_DecodePacket_Fault` still succeeds, but it does not assign
`failure_level` at all: the field retains the prior contents of the output
struct, whatever they are. -/
theorem C1_level01_keeps_prior (data : Frame8) (fault : CanPacket_Fault)
    (h : data.b3.val &&& 0x03 = 0x01) :
    (CanBus_DecodePacket_Fault data fault).1 = true ∧
    (CanBus_DecodePacket_Fault data fault).2.failure_level = fault.failure_level := by
  refine ⟨rfl, ?_⟩
  simp only [CanBus_DecodePacket_Fault, h]
  norm_num

/-- C1 (witness): the amended theorem applied to `faultFrame01`/`priorWarn`. -/
theorem C1_witness :
    faultFrame01.b3.val &&& 0x03 = 0x01 ∧
    ((CanBus_DecodePacket_Fault faultFrame01 priorWarn).1 = true ∧
     (CanBus_DecodePacket_Fault faultFrame01 priorWarn).2.failure_level =
       priorWarn.failure_level) :=
  ⟨rfl, C1_level01_keeps_prior faultFrame01 priorWarn rfl⟩

/-- C2: `CanBus_IsNoFaultDetected` holds iff bytes 1-7 all equal `0xFF`, and
the fault-report pipeline maps the frame `[0x00,0xFF,...,0xFF]` to the
"no fault stored" report rather than a decoded record. -/
theorem C2_sentinel_precedence :
    (∀ data : Frame8, CanBus_IsNoFaultDetected data = true ↔
      (data.b1.val = 0xFF ∧ data.b2.val = 0xFF ∧ data.b3.val = 0xFF ∧
       data.b4.val = 0xFF ∧ data.b5.val = 0xFF ∧ data.b6.val = 0xFF ∧
       data.b7.val = 0xFF)) ∧
    (∀ prior : CanPacket_Fault,
      CanBus_Debug_PrintFault noFaultFrame prior = FaultReport.noFault) := by
  constructor
  · intro data
    simp [CanBus_IsNoFaultDetected, and_assoc]
  · intro prior
    rfl

/-- C7: decoding the documented example Fault frame yields a Single frame,
one total error, fault code `0xA8`, Hard failure level, first time 30 h and
last time 120 h, for any prior contents of the output struct. -/
theorem C7_fault_known_vector (prior : CanPacket_Fault) :
    (CanBus_DecodePacket_Fault faultExampleFrame prior).1 = true ∧
    (CanBus_DecodePacket_Fault faultExampleFrame prior).2.frame_type = FRAME_SINGLE ∧
    (CanBus_DecodePacket_Fault faultExampleFrame prior).2.total_errors = 1 ∧
    (CanBus_DecodePacket_Fault faultExampleFrame prior).2.fault_code = 0xA8 ∧
    (CanBus_DecodePacket_Fault faultExampleFrame prior).2.failure_level = FAILURE_HARD ∧
    (CanBus_DecodePacket_Fault faultExampleFrame prior).2.first_time_h = 30 ∧
    (CanBus_DecodePacket_Fault faultExampleFrame prior).2.last_time_h = 120 :=
  ⟨rfl, rfl, rfl, rfl, rfl, rfl, rfl⟩

/-- C8: decoding the documented example TST2 frame yields baudrate
500 Kbit/s, 32 A max AC current, 400 V max output voltage, 100 A max output
current and password `0xA5`. -/
theorem C8_tst2_known_vector :
    (CanBus_DecodePacket_Tst2 tst2ExampleFrame).baudrate = BAUDRATE_500KBIT ∧
    (CanBus_DecodePacket_Tst2 tst2ExampleFrame).iacm_max_set_A = 32 ∧
    (CanBus_DecodePacket_Tst2 tst2ExampleFrame).vout_max_set_V = 400 ∧
    (CanBus_DecodePacket_Tst2 tst2ExampleFrame).iout_max_set_A = 100 ∧
    (CanBus_DecodePacket_Tst2 tst2ExampleFrame).password = 0xA5 := by
  have hb2 : (tst2ExampleFrame.b2).val = 160 := rfl
  have hv : ((tst2ExampleFrame.b3.val <<< 8) ||| tst2ExampleFrame.b4.val) = 4000 := rfl
  have hi : ((tst2ExampleFrame.b5.val <<< 8) ||| tst2ExampleFrame.b6.val) = 1000 := rfl
  refine ⟨rfl, ?_, ?_, ?_, rfl⟩
  · simp only [CanBus_DecodePacket_Tst2, hb2]
    norm_num
  · simp only [CanBus_DecodePacket_Tst2, hv]
    norm_num
  · simp only [CanBus_DecodePacket_Tst2, hi]
    norm_num

/-- C9 (counterexample): decode results are not determined by the buffer
alone — `CanBus_DecodePacket_Fault` on a fixed buffer with level bits 01
yields different structs for different prior output-struct contents. -/
theorem C9_counterexample :
    ¬ (∀ (data : Frame8) (p q : CanPacket_Fault),
        CanBus_DecodePacket_Fault data p = CanBus_DecodePacket_Fault data q) := by
  intro h
  have h2 := h faultFrame01b priorWarn prior99
  have h3 : (CanBus_DecodePacket_Fault faultFrame01b priorWarn).2.failure_level =
      (CanBus_DecodePacket_Fault faultFrame01b prior99).2.failure_level := by rw [h2]
  exact absurd h3 (by decide)

/-- C9 (amended): STAT decoding is a pure function of the buffer, and Fault
decoding is a pure function of the buffer whenever the failure-level bits
differ from the undefined pattern 01 (when they equal 01 the `failure_level`
field retains the prior output-struct contents). -/
theorem C9_decode_purity (data : Frame8) (s t : CanPacket_Stat)
    (p q : CanPacket_Fault) (h : data.b3.val &&& 0x03 ≠ 0x01) :
    CanBus_DecodePacket_Stat data s = CanBus_DecodePacket_Stat data t ∧
    CanBus_DecodePacket_Fault data p = CanBus_DecodePacket_Fault data q := by
  refine ⟨rfl, ?_⟩
  have hlt : data.b3.val &&& 0x03 ≤ 0x03 := Nat.and_le_right
  have hcase : data.b3.val &&& 0x03 = 0 ∨ data.b3.val &&& 0x03 = 2 ∨
      data.b3.val &&& 0x03 = 3 := by omega
  rcases hcase with h0 | h0 | h0 <;> simp [CanBus_DecodePacket_Fault, h0]

/-- C9 (witness): the amended theorem applied to the documented example
frame (level bits 11) and distinct prior structs. -/
theorem C9_witness :
    faultExampleFrame.b3.val &&& 0x03 ≠ 0x01 ∧
    (CanBus_DecodePacket_Stat faultExampleFrame statPriorA =
       CanBus_DecodePacket_Stat faultExampleFrame statPriorB ∧
     CanBus_DecodePacket_Fault faultExampleFrame priorWarn =
       CanBus_DecodePacket_Fault faultExampleFrame prior99) :=
  ⟨by decide,
   C9_decode_purity faultExampleFrame statPriorA statPriorB priorWarn prior99
     (by decide)⟩

/-- C10: for each modelled codec function, a NULL data pointer or NULL
output pointer makes the call return false without writing anything, and a
call with both pointers valid returns true. -/
theorem C10_null_guards :
    (∀ d : Option Frame8, CanBus_CreatePacket_Ctl_call none d = (false, d)) ∧
    (∀ c : Option CanPacket_Ctl, CanBus_CreatePacket_Ctl_call c none = (false, none)) ∧
    (∀ (c : CanPacket_Ctl) (b : Frame8),
       (CanBus_CreatePacket_Ctl_call (some c) (some b)).1 = true) ∧
    (∀ f : Option CanPacket_Fault, CanBus_DecodePacket_Fault_call none f = (false, f)) ∧
    (∀ d : Option Frame8, CanBus_DecodePacket_Fault_call d none = (false, none)) ∧
    (∀ (d : Frame8) (f : CanPacket_Fault),
       (CanBus_DecodePacket_Fault_call (some d) (some f)).1 = true) ∧
    (∀ t : Option CanPacket_Tst2, CanBus_DecodePacket_Tst2_call none t = (false, t)) ∧
    (∀ d : Option Frame8, CanBus_DecodePacket_Tst2_call d none = (false, none)) ∧
    (∀ (d : Frame8) (t : CanPacket_Tst2),
       (CanBus_DecodePacket_Tst2_call (some d) (some t)).1 = true) := by
  refine ⟨?_, ?_, ?_, ?_, ?_, ?_, ?_, ?_, ?_⟩ <;>
    first
      | (intro x; cases x <;> rfl)
      | (intro x y; rfl)

/-- C3 (counterexample): the stored raw is not `round(physical / 0.1)` — at
iac = 1/16 A (in range) the frame stores raw 0 while rounding gives 1. -/
theorem C3_counterexample :
    ¬ (∀ (e l : Bool) (iac vout iout : ℚ),
        0 ≤ iac → iac ≤ 500 → 0 ≤ vout → vout ≤ 10000 → 0 ≤ iout → iout ≤ 1500 →
        (((CanBus_CreatePacket_Ctl ⟨e, l, iac, vout, iout⟩).b1.val * 256 +
           (CanBus_CreatePacket_Ctl ⟨e, l, iac, vout, iout⟩).b2.val : ℕ) : ℤ) =
          round (iac / (1 / 10))) := by
  intro h
  have h2 := h false false (1 / 16) 0 0 (by norm_num) (by norm_num) (by norm_num)
    (by norm_num) (by norm_num) (by norm_num)
  have hr : CurrentAC_ToRawCAN (1 / 16) = 0 := by
    simp only [CurrentAC_ToRawCAN]
    rw [clamp_in_range (1 / 16) 500 (by norm_num) (by norm_num)]
    have hf : ⌊(1 / 16 : ℚ) * 10⌋ = 0 := by
      rw [Int.floor_eq_zero_iff, Set.mem_Ico]
      norm_num
    rw [hf]
    rfl
  have hb : ((CanBus_CreatePacket_Ctl ⟨false, false, 1 / 16, 0, 0⟩).b1.val * 256 +
      (CanBus_CreatePacket_Ctl ⟨false, false, 1 / 16, 0, 0⟩).b2.val) = 0 := by
    simp only [CanBus_CreatePacket_Ctl, hr]
    rfl
  have hround : round ((1 / 16 : ℚ) / (1 / 10)) = 1 := by
    rw [round_eq, show (1 / 16 : ℚ) / (1 / 10) = 5 / 8 by norm_num,
      Int.floor_eq_iff]
    norm_num
  rw [hb, hround] at h2
  norm_num at h2

/-- C3 (amended): for every in-range input the 16-bit raw stored in the
frame is the truncation toward zero of physical × 10 — reduced mod 2^16,
which is only non-trivial for output voltages above 6553.5 V — and not the
rounding to the nearest integer. -/
theorem C3_truncation (e l : Bool) (iac vout iout : ℚ)
    (h1 : 0 ≤ iac) (h2 : iac ≤ 500) (h3 : 0 ≤ vout) (h4 : vout ≤ 10000)
    (h5 : 0 ≤ iout) (h6 : iout ≤ 1500) :
    (CanBus_CreatePacket_Ctl ⟨e, l, iac, vout, iout⟩).b1.val * 256 +
      (CanBus_CreatePacket_Ctl ⟨e, l, iac, vout, iout⟩).b2.val =
        Int.toNat ⌊iac * 10⌋ ∧
    (CanBus_CreatePacket_Ctl ⟨e, l, iac, vout, iout⟩).b3.val * 256 +
      (CanBus_CreatePacket_Ctl ⟨e, l, iac, vout, iout⟩).b4.val =
        Int.toNat ⌊vout * 10⌋ % 65536 ∧
    (CanBus_CreatePacket_Ctl ⟨e, l, iac, vout, iout⟩).b5.val * 256 +
      (CanBus_CreatePacket_Ctl ⟨e, l, iac, vout, iout⟩).b6.val =
        Int.toNat ⌊iout * 10⌋ := by
  have hiac : CurrentAC_ToRawCAN iac = Int.toNat ⌊iac * 10⌋ := by
    simp only [CurrentAC_ToRawCAN]
    rw [clamp_in_range iac 500 h1 h2]
    exact Nat.mod_eq_of_lt (toNat_floor_mul10_lt iac (by linarith))
  have hvout : Voltage_ToRawCan vout = Int.toNat ⌊vout * 10⌋ % 65536 := by
    simp only [Voltage_ToRawCan]
    rw [clamp_in_range vout 10000 h3 h4]
  have hiout : CurrentOut_ToRawCan iout = Int.toNat ⌊iout * 10⌋ := by
    simp only [CurrentOut_ToRawCan]
    rw [clamp_in_range iout 1500 h5 h6]
    exact Nat.mod_eq_of_lt (toNat_floor_mul10_lt iout (by linarith))
  refine ⟨?_, ?_, ?_⟩
  · simp only [CanBus_CreatePacket_Ctl, hiac]
    exact bytes_recompose _ (toNat_floor_mul10_lt iac (by linarith))
  · simp only [CanBus_CreatePacket_Ctl, hvout]
    exact bytes_recompose _ (Nat.mod_lt _ (by norm_num))
  · simp only [CanBus_CreatePacket_Ctl, hiout]
    exact bytes_recompose _ (toNat_floor_mul10_lt iout (by linarith))

/-- C3 (witness): the amended theorem applied to the documented example
input 16 A / 360 V / 17 A. -/
theorem C3_witness :
    ((0 : ℚ) ≤ 16 ∧ (16 : ℚ) ≤ 500 ∧ (0 : ℚ) ≤ 360 ∧ (360 : ℚ) ≤ 10000 ∧
     (0 : ℚ) ≤ 17 ∧ (17 : ℚ) ≤ 1500) ∧
    ((CanBus_CreatePacket_Ctl ⟨true, false, 16, 360, 17⟩).b1.val * 256 +
       (CanBus_CreatePacket_Ctl ⟨true, false, 16, 360, 17⟩).b2.val =
         Int.toNat ⌊(16 : ℚ) * 10⌋ ∧
     (CanBus_CreatePacket_Ctl ⟨true, false, 16, 360, 17⟩).b3.val * 256 +
       (CanBus_CreatePacket_Ctl ⟨true, false, 16, 360, 17⟩).b4.val =
         Int.toNat ⌊(360 : ℚ) * 10⌋ % 65536 ∧
     (CanBus_CreatePacket_Ctl ⟨true, false, 16, 360, 17⟩).b5.val * 256 +
       (CanBus_CreatePacket_Ctl ⟨true, false, 16, 360, 17⟩).b6.val =
         Int.toNat ⌊(17 : ℚ) * 10⌋) :=
  ⟨⟨by norm_num, by norm_num, by norm_num, by norm_num, by norm_num, by norm_num⟩,
   C3_truncation true false 16 360 17 (by norm_num) (by norm_num) (by norm_num)
     (by norm_num) (by norm_num) (by norm_num)⟩

/-- C4: each setpoint field is clamped to its own documented range before
scaling, encoding always succeeds on valid pointers, and encoding with
iac = 600 A yields exactly the frame of iac = 500 A. -/
theorem C4_clamping :
    (∀ q : ℚ, CurrentAC_ToRawCAN q = Int.toNat ⌊min (max q 0) 500 * 10⌋ % 65536) ∧
    (∀ q : ℚ, Voltage_ToRawCan q = Int.toNat ⌊min (max q 0) 10000 * 10⌋ % 65536) ∧
    (∀ q : ℚ, CurrentOut_ToRawCan q = Int.toNat ⌊min (max q 0) 1500 * 10⌋ % 65536) ∧
    (∀ (e l : Bool) (vout iout : ℚ),
       CanBus_CreatePacket_Ctl ⟨e, l, 600, vout, iout⟩ =
         CanBus_CreatePacket_Ctl ⟨e, l, 500, vout, iout⟩) ∧
    (∀ (c : CanPacket_Ctl) (b : Frame8),
       (CanBus_CreatePacket_Ctl_call (some c) (some b)).1 = true) := by
  refine ⟨?_, ?_, ?_, ?_, fun c b => rfl⟩
  · intro q
    simp only [CurrentAC_ToRawCAN]
    rw [clamp_eq_min_max q 500 (by norm_num)]
  · intro q
    simp only [Voltage_ToRawCan]
    rw [clamp_eq_min_max q 10000 (by norm_num)]
  · intro q
    simp only [CurrentOut_ToRawCan]
    rw [clamp_eq_min_max q 1500 (by norm_num)]
  · intro e l vout iout
    have h : CurrentAC_ToRawCAN 600 = CurrentAC_ToRawCAN 500 := by
      simp only [CurrentAC_ToRawCAN]
      norm_num
    simp only [CanBus_CreatePacket_Ctl, h]

/-- C5: encoding enable=true, led3=false, 16 A, 360 V, 17 A produces exactly
the frame `[0x80, 0x00, 0xA0, 0x0E, 0x10, 0x00, 0xAA, 0x00]`. -/
theorem C5_ctl_known_vector :
    CanBus_CreatePacket_Ctl ⟨true, false, 16, 360, 17⟩ =
      ⟨0x80, 0x00, 0xA0, 0x0E, 0x10, 0x00, 0xAA, 0x00⟩ := by
  have h1 : CurrentAC_ToRawCAN 16 = 160 := by
    simp only [CurrentAC_ToRawCAN]
    norm_num
    decide
  have h2 : Voltage_ToRawCan 360 = 3600 := by
    simp only [Voltage_ToRawCan]
    norm_num
    decide
  have h3 : CurrentOut_ToRawCan 17 = 170 := by
    simp only [CurrentOut_ToRawCan]
    norm_num
    decide
  simp only [CanBus_CreatePacket_Ctl, h1, h2, h3]
  decide

/-- C6 (counterexample): the round trip does not hold over the full claimed
range — at vout = 7000 V the scaled raw 70000 wraps mod 2^16 to 4464 and the
decoded voltage 446.4 V differs from the input by far more than 0.1 V. -/
theorem C6_counterexample :
    ¬ (∀ (e l : Bool) (iac vout iout : ℚ),
        0 ≤ iac → iac ≤ 500 → 0 ≤ vout → vout ≤ 10000 → 0 ≤ iout → iout ≤ 1500 →
        |(ctlRoundTrip ⟨e, l, iac, vout, iout⟩).vout - vout| ≤ 1 / 10) := by
  intro h
  have h2 := h true false 16 7000 17 (by norm_num) (by norm_num) (by norm_num)
    (by norm_num) (by norm_num) (by norm_num)
  have hv : Voltage_ToRawCan 7000 = 4464 := by
    simp only [Voltage_ToRawCan]
    norm_num
    decide
  have hb : ((toByte ((4464 >>> 8) &&& 0xFF)).val <<< 8) |||
      (toByte (4464 &&& 0xFF)).val = 4464 := rfl
  have hd : (ctlRoundTrip ⟨true, false, 16, 7000, 17⟩).vout = 4464 / 10 := by
    simp only [ctlRoundTrip, CanBus_CreatePacket_Ctl, CanBus_Debug_PrintCtl, hv, hb]
    norm_num
  rw [hd, abs_le] at h2
  have h3 := h2.1
  norm_num at h3

/-- C6 (amended): for all valid flags and setpoints, with the output voltage
restricted to at most 6553.5 V (the largest value whose ×10 raw fits in 16
bits), decoding the encoded CTL frame recovers both flags exactly and every
physical value within the 0.1 quantization step. -/
theorem C6_roundtrip (e l : Bool) (iac vout iout : ℚ)
    (h1 : 0 ≤ iac) (h2 : iac ≤ 500) (h3 : 0 ≤ vout) (h4 : vout ≤ 6553.5)
    (h5 : 0 ≤ iout) (h6 : iout ≤ 1500) :
    (ctlRoundTrip ⟨e, l, iac, vout, iout⟩).can_enable = e ∧
    (ctlRoundTrip ⟨e, l, iac, vout, iout⟩).led3 = l ∧
    |(ctlRoundTrip ⟨e, l, iac, vout, iout⟩).iac - iac| ≤ 1 / 10 ∧
    |(ctlRoundTrip ⟨e, l, iac, vout, iout⟩).vout - vout| ≤ 1 / 10 ∧
    |(ctlRoundTrip ⟨e, l, iac, vout, iout⟩).iout - iout| ≤ 1 / 10 := by
  have hia_lt : Int.toNat ⌊iac * 10⌋ < 65536 := toNat_floor_mul10_lt iac (by linarith)
  have hvo_lt : Int.toNat ⌊vout * 10⌋ < 65536 := toNat_floor_mul10_lt vout (by linarith)
  have hio_lt : Int.toNat ⌊iout * 10⌋ < 65536 := toNat_floor_mul10_lt iout (by linarith)
  have hiac : CurrentAC_ToRawCAN iac = Int.toNat ⌊iac * 10⌋ := by
    simp only [CurrentAC_ToRawCAN]
    rw [clamp_in_range iac 500 h1 h2]
    exact Nat.mod_eq_of_lt hia_lt
  have hvout : Voltage_ToRawCan vout = Int.toNat ⌊vout * 10⌋ := by
    simp only [Voltage_ToRawCan]
    rw [clamp_in_range vout 10000 h3 (by linarith)]
    exact Nat.mod_eq_of_lt hvo_lt
  have hiout : CurrentOut_ToRawCan iout = Int.toNat ⌊iout * 10⌋ := by
    simp only [CurrentOut_ToRawCan]
    rw [clamp_in_range iout 1500 h5 h6]
    exact Nat.mod_eq_of_lt hio_lt
  refine ⟨?_, ?_, ?_, ?_, ?_⟩
  · simp only [ctlRoundTrip, CanBus_CreatePacket_Ctl, CanBus_Debug_PrintCtl]
    exact flag_bit7 e l
  · simp only [ctlRoundTrip, CanBus_CreatePacket_Ctl, CanBus_Debug_PrintCtl]
    exact flag_bit3 e l
  · simp only [ctlRoundTrip, CanBus_CreatePacket_Ctl, CanBus_Debug_PrintCtl, hiac]
    rw [bytes_recompose_lor _ hia_lt]
    exact floor_div10_close iac h1
  · simp only [ctlRoundTrip, CanBus_CreatePacket_Ctl, CanBus_Debug_PrintCtl, hvout]
    rw [bytes_recompose_lor _ hvo_lt]
    exact floor_div10_close vout h3
  · simp only [ctlRoundTrip, CanBus_CreatePacket_Ctl, CanBus_Debug_PrintCtl, hiout]
    rw [bytes_recompose_lor _ hio_lt]
    exact floor_div10_close iout h5

/-- C6 (witness): the amended theorem applied to the documented example
input true/false/16 A/360 V/17 A. -/
theorem C6_witness :
    ((0 : ℚ) ≤ 16 ∧ (16 : ℚ) ≤ 500 ∧ (0 : ℚ) ≤ 360 ∧ (360 : ℚ) ≤ 6553.5 ∧
     (0 : ℚ) ≤ 17 ∧ (17 : ℚ) ≤ 1500) ∧
    ((ctlRoundTrip ⟨true, false, 16, 360, 17⟩).can_enable = true ∧
     (ctlRoundTrip ⟨true, false, 16, 360, 17⟩).led3 = false ∧
     |(ctlRoundTrip ⟨true, false, 16, 360, 17⟩).iac - 16| ≤ 1 / 10 ∧
     |(ctlRoundTrip ⟨true, false, 16, 360, 17⟩).vout - 360| ≤ 1 / 10 ∧
     |(ctlRoundTrip ⟨true, false, 16, 360, 17⟩).iout - 17| ≤ 1 / 10) :=
  ⟨⟨by norm_num, by norm_num, by norm_num, by norm_num, by norm_num, by norm_num⟩,
   C6_roundtrip true false 16 360 17 (by norm_num) (by norm_num) (by norm_num)
     (by norm_num) (by norm_num) (by norm_num)⟩
